import Mathlib

/-!
Verification of the core data pipeline of the `ai-financial-analyst`
repository (`src/pipeline/`): reader, type inferencer, layout
normaliser, cleaner, profiler and orchestrator.

The pandas `DataFrame` is embedded shallowly as a list of column labels
together with a list of rows of cells.  Pandas/numpy scalars are embedded as
the `Cell` type: `null` stands for NaN/None/NaT, `num` for Python floats
(represented exactly as rationals), `int` for Python ints, `str` for strings
and `date` for pandas Timestamps.  Floating point rounding is irrelevant to
the verified properties (all concrete values used are exactly representable),
so rationals are a faithful carrier.
-/

set_option autoImplicit false

namespace FinPipeline

/-- Exact rational numbers in lowest terms (positive denominator), used to
model Python/numpy float values and pandas statistics exactly.  A bespoke
type rather than Mathlib's `Rat` so that every arithmetic operation reduces
inside the kernel, letting concrete pipeline runs be checked by `decide`. -/
structure PyRat where
  n : Int
  d : Nat
deriving Repr, DecidableEq

namespace PyRat

/-- Normalising constructor: divide out the gcd (`0/1` for a zero
denominator, which no modelled operation produces). -/
def mk' (a : Int) (b : Nat) : PyRat :=
  if b = 0 then ⟨0, 1⟩
  else
    let g := Nat.gcd a.natAbs b
    ⟨a / (g : Int), b / g⟩

instance : NatCast PyRat := ⟨fun k => ⟨(k : Int), 1⟩⟩
instance : IntCast PyRat := ⟨fun a => ⟨a, 1⟩⟩
instance (k : Nat) : OfNat PyRat k := ⟨⟨(k : Int), 1⟩⟩
instance : Add PyRat := ⟨fun a b => mk' (a.n * (b.d : Int) + b.n * (a.d : Int)) (a.d * b.d)⟩
instance : Neg PyRat := ⟨fun a => ⟨-a.n, a.d⟩⟩
instance : Sub PyRat := ⟨fun a b => a + -b⟩
instance : Mul PyRat := ⟨fun a b => mk' (a.n * b.n) (a.d * b.d)⟩

/-- Reciprocal (of a nonzero value; `0⁻¹ = 0` defensively). -/
def inv (a : PyRat) : PyRat :=
  if a.n = 0 then ⟨0, 1⟩
  else if 0 < a.n then ⟨(a.d : Int), a.n.natAbs⟩
  else ⟨-(a.d : Int), a.n.natAbs⟩

instance : Div PyRat := ⟨fun a b => a * inv b⟩
instance : LT PyRat := ⟨fun a b => a.n * (b.d : Int) < b.n * (a.d : Int)⟩
instance : LE PyRat := ⟨fun a b => a.n * (b.d : Int) ≤ b.n * (a.d : Int)⟩

instance (a b : PyRat) : Decidable (a < b) :=
  inferInstanceAs (Decidable (a.n * (b.d : Int) < b.n * (a.d : Int)))

instance (a b : PyRat) : Decidable (a ≤ b) :=
  inferInstanceAs (Decidable (a.n * (b.d : Int) ≤ b.n * (a.d : Int)))

/-- Floor to an integer. -/
def floor (a : PyRat) : Int := Int.fdiv a.n (a.d : Int)

/-- Sum of a list. -/
def qSum (l : List PyRat) : PyRat := l.foldl (· + ·) ⟨0, 1⟩

end PyRat

/-- A pandas cell value: `null` models NaN/None/NaT, `num` models a Python
float (exact rational carrier), `date` models a pandas Timestamp (date part
only, which is all the pipeline ever renders). -/
inductive Cell where
  | null
  | str (s : String)
  | int (n : Int)
  | num (q : PyRat)
  | date (y m d : Nat)
deriving Repr, DecidableEq

/-- A pandas column label, which in this code base can be a string, an int
(e.g. a bare year column coming from Excel) or a float. -/
inductive ColName where
  | str (s : String)
  | int (n : Int)
  | num (q : PyRat)
deriving Repr, DecidableEq


/-- Left-pad a string of digits with zeros up to width `k`. -/
def padZeros (s : String) (k : Nat) : String :=
  String.mk (List.replicate (k - s.length) '0') ++ s

/-- Render a rational the way Python renders the corresponding float
(`str(1200.5) = "1200.5"`, `str(2024.0) = "2024.0"`).  Only rationals with a
denominator dividing a power of ten (i.e. values with a finite decimal
expansion, which is all the pipeline's concrete data uses) are rendered; any
other value falls back to a `num:` marker. -/
def ratPyStr (q : PyRat) : String :=
  if q.d = 1 then toString q.n ++ ".0"
  else
    match (List.range 40).find? (fun k => decide (q.d ∣ 10 ^ (k + 1))) with
    | some k =>
        let k1 := k + 1
        let sign := if q.n < 0 then "-" else ""
        let scaled : Nat := q.n.natAbs * 10 ^ k1 / q.d
        let ip := scaled / 10 ^ k1
        let fp := scaled % 10 ^ k1
        sign ++ toString ip ++ "." ++ padZeros (toString fp) k1
    | none => "num:" ++ toString q.n ++ "/" ++ toString q.d

/-- Render a date cell the way `str(pandas.Timestamp(...))` does. -/
def datePyStr (y m d : Nat) : String :=
  padZeros (toString y) 4 ++ "-" ++ padZeros (toString m) 2 ++ "-" ++
    padZeros (toString d) 2 ++ " 00:00:00"

/-- `series.astype(str)` elementwise: the Python string form of a cell.
A NaN renders as `"nan"`. -/
def Cell.pyStr : Cell → String
  | .null => "nan"
  | .str s => s
  | .int n => toString n
  | .num q => ratPyStr q
  | .date y m d => datePyStr y m d

/-- `str(label)` for a column label. -/
def ColName.render : ColName → String
  | .str s => s
  | .int n => toString n
  | .num q => ratPyStr q

/-- Python `str.strip()` on a character list: drop leading and trailing
whitespace. -/
def stripChars (l : List Char) : List Char :=
  ((l.dropWhile Char.isWhitespace).reverse.dropWhile Char.isWhitespace).reverse

/-- Python `str.strip()`. -/
def pyStrip (s : String) : String :=
  String.mk (stripChars s.toList)

/-- Python `str.isdigit`: non-empty and all characters are digits. -/
def pyIsdigit (s : String) : Bool :=
  s ≠ "" && s.toList.all Char.isDigit

/-- Python `str.endswith("%")`. -/
def pyEndsWithPercent (s : String) : Bool :=
  s.toList.getLast? == some '%'

/-- Stable insertion of `x` into a list sorted by `le` (ties keep `x`
first, matching the stability of Python's sort). -/
def insertLe {α : Type} (le : α → α → Bool) (x : α) : List α → List α
  | [] => [x]
  | y :: ys => if le x y then x :: y :: ys else y :: insertLe le x ys

/-- Stable insertion sort (Python's `sorted` is likewise stable). -/
def insertionSort {α : Type} (le : α → α → Bool) : List α → List α
  | [] => []
  | x :: xs => insertLe le x (insertionSort le xs)

/-- Numeric value of a list of decimal digit characters. -/
def digitsVal (l : List Char) : Nat :=
  l.foldl (fun a c => a * 10 + (c.toNat - 48)) 0

/-- Parse a string the way `float(...)` / `pd.to_numeric` parse a plain
decimal literal: optional surrounding whitespace, optional sign, digits with
at most one decimal point and at least one digit.  Exponent notation and
underscore separators, which never occur in this repository's data, are not
modelled and yield `none`. -/
def parseUnsigned (l : List Char) : Option PyRat :=
  if l.all (fun c => c.isDigit || c == '.') && l.count '.' ≤ 1 && l.any Char.isDigit then
    let ip := l.takeWhile (· ≠ '.')
    let fp := (l.dropWhile (· ≠ '.')).drop 1
    some ((digitsVal ip : PyRat) + PyRat.mk' (digitsVal fp : Int) (10 ^ fp.length))
  else none

/-- Parse a signed decimal string (model of `pd.to_numeric` on one value;
`errors="coerce"` turns a `none` into NaN). -/
def parsePyNumber (s : String) : Option PyRat :=
  match stripChars s.toList with
  | '-' :: r => (parseUnsigned r).map Neg.neg
  | '+' :: r => parseUnsigned r
  | r => parseUnsigned r

/-- Whether a string contains one of the hard-coded currency symbols of
`cleaner._CURRENCY_RE` / the inferencer's currency regex `[\$€£]`. -/
def hasCurrencySymbol (s : String) : Bool :=
  s.toList.any (fun c => c == '$' || c == '€' || c == '£')

/-- A plausible ISO date string `YYYY-MM-DD`, the shape `pd.to_datetime`
accepts for the string data appearing in this development.  (Pandas accepts
more formats; string cells used in concrete inputs below are either ISO dates
or clearly unparseable, where this model agrees with pandas.) -/
def isIsoDateString (s : String) : Bool :=
  match s.toList with
  | [y1, y2, y3, y4, '-', m1, m2, '-', d1, d2] =>
      [y1, y2, y3, y4, m1, m2, d1, d2].all Char.isDigit &&
      1 ≤ digitsVal [m1, m2] && digitsVal [m1, m2] ≤ 12 &&
      1 ≤ digitsVal [d1, d2] && digitsVal [d1, d2] ≤ 31
  | _ => false

/-- `pd.to_datetime(value, errors="coerce")` success for one cell: NaN stays
NaT (failure); ints and floats are interpreted as epoch offsets (success);
Timestamps stay Timestamps; strings succeed when they look like a date. -/
def Cell.dateParseable : Cell → Bool
  | .null => false
  | .str s => isIsoDateString s
  | .int _ => true
  | .num _ => true
  | .date _ _ _ => true

/-- Whether a cell is NaN/None/NaT. -/
def Cell.isNull : Cell → Bool
  | .null => true
  | _ => false

/-- Whether a cell is a numeric scalar. -/
def Cell.isNum : Cell → Bool
  | .int _ => true
  | .num _ => true
  | _ => false

/-- Whether a pandas column holding these cells has a numpy numeric dtype
(`int64`/`float64`): non-empty and every cell an int, float or NaN. -/
def isNumericDtypeVals (vals : List Cell) : Bool :=
  !vals.isEmpty && vals.all (fun v => v.isNum || v.isNull)

/-- Whether a pandas column holding these cells has `object` dtype
(modelled as: some cell is a string). -/
def isObjectDtypeVals (vals : List Cell) : Bool :=
  vals.any (fun v => match v with | .str _ => true | _ => false)

/-- `pd.to_numeric(value, errors="coerce")` success for one cell
(NaN input coerces to NaN, i.e. failure). -/
def Cell.numericParseable : Cell → Bool
  | .null => false
  | .str s => (parsePyNumber s).isSome
  | .int _ => true
  | .num _ => true
  | .date _ _ _ => false

/-- A mean over counts as pandas computes it: the empty series gives NaN,
and every comparison `NaN > t` is false; that is modelled by returning `0`
for an empty denominator (all thresholds compared against are positive). -/
def ratio (k n : Nat) : PyRat :=
  if n = 0 then 0 else (k : PyRat) / (n : PyRat)

/-- A pandas `DataFrame`: ordered column labels and rows of cells (rows are
rectangular: one cell per column). -/
structure DataFrame where
  cols : List ColName
  rows : List (List Cell)
deriving Repr, DecidableEq

/-- The cells of column `i` (positional access). -/
def DataFrame.colValues (df : DataFrame) (i : Nat) : List Cell :=
  df.rows.map (fun r => r.getD i .null)

/-- `df[label]`: the cells of the first column carrying `label`.  Exact for
the label sets occurring here (pandas raises on duplicated labels). -/
def DataFrame.labelValues (df : DataFrame) (c : ColName) : List Cell :=
  match df.cols.indexOf? c with
  | some i => df.colValues i
  | none => []

/-- The columns in order, each paired with its cells, as iterated by
`for col in df.columns: series = df[col]`. -/
def DataFrame.columnEntries (df : DataFrame) : List (ColName × List Cell) :=
  df.cols.enum.map (fun p => (p.2, df.colValues p.1))

/-- Python `dict` insertion `m[k] = v`: replaces the value in place when the
key is present, appends otherwise. -/
def dictInsert {κ ν : Type} [DecidableEq κ]
    (m : List (κ × ν)) (k : κ) (v : ν) : List (κ × ν) :=
  match m with
  | [] => [(k, v)]
  | (k0, v0) :: rest =>
      if k0 = k then (k0, v) :: rest else (k0, v0) :: dictInsert rest k v

/-- Python `dict` lookup (keys are unique after `dictInsert`). -/
def dictFind {κ ν : Type} [DecidableEq κ] (m : List (κ × ν)) (k : κ) : Option ν :=
  (m.find? (fun p => p.1 = k)).map Prod.snd

-- ---------------------------------------------------------------------------
-- Type inference engine (src/pipeline/type_inferencer.py)
-- ---------------------------------------------------------------------------

/-- `ColumnTypeInfo` as built by `TypeInferencer.infer`. -/
structure ColumnTypeInfo where
  column_type : String
  confidence : PyRat
  notes : String
  recommended_actions : List String
deriving Repr, DecidableEq

/-- The period test of `TypeInferencer.infer` (step 0): the column label is a
4-digit year, either as an `int` in `[1900, 2100]`, as a float with integral
value in that range, or as a digit string whose value lies in that range. -/
def isYearName (c : ColName) : Bool :=
  match c with
  | .int n => 1900 ≤ n && n ≤ 2100
  | .num q => q.d == 1 && 1900 ≤ q.n && q.n ≤ 2100
  | .str s =>
      let t := pyStrip s
      pyIsdigit t &&
        (let n := digitsVal t.toList
         1900 ≤ n && n ≤ 2100)

/-- The guard of step 3 of the cascade: date detection is skipped when the
column is numeric dtype, or when every value is a digit string whose float
value lies in `[1900, 2100]`. -/
def skipDateDetection (vals : List Cell) : Bool :=
  isNumericDtypeVals vals ||
    (vals.all (fun v => pyIsdigit v.pyStr) &&
     vals.all (fun v =>
       match parsePyNumber v.pyStr with
       | some q => 1900 ≤ q && q ≤ 2100
       | none => false))

/-- Count of distinct non-null values (`series.nunique()`). -/
def nunique (vals : List Cell) : Nat :=
  ((vals.filter (fun v => !v.isNull)).dedup).length

/-- The per-column body of `TypeInferencer.infer`: the short-circuiting
cascade period → percentage → currency → date → numeric → id → text,
evaluated on a column's label and cells. -/
def inferColumn (col : ColName) (vals : List Cell) : ColumnTypeInfo :=
  let col_str := pyStrip col.render
  if isYearName col then
    ⟨"period", 1,
      "Column name '" ++ col_str ++ "' appears to be a year/period", []⟩
  else
    let n := vals.length
    let pctFrac := ratio (vals.countP (fun v => pyEndsWithPercent v.pyStr)) n
    if pctFrac > 1 / 2 then ⟨"percentage", pctFrac, "", []⟩
    else
      let curFrac := ratio (vals.countP (fun v => hasCurrencySymbol v.pyStr)) n
      if curFrac > 3 / 10 then ⟨"currency", curFrac, "", []⟩
      else
        let dateFrac := ratio (vals.countP Cell.dateParseable) n
        if !skipDateDetection vals && dateFrac > 1 / 2 then
          ⟨"date", dateFrac, "", []⟩
        else
          let numFrac := ratio (vals.countP Cell.numericParseable) n
          if numFrac > 7 / 10 then ⟨"numeric", numFrac, "", []⟩
          else if isObjectDtypeVals vals && ratio (nunique vals) n > 9 / 10 then
            ⟨"id", 8 / 10, "", []⟩
          else ⟨"text", 1 / 2, "", []⟩

namespace TypeInferencer

/-- `TypeInferencer.VERSION`. -/
def VERSION : String := "0.2.0"

/-- `TypeInferencer.infer`: one dict entry per column, keyed by `str(col)`
with Python-dict overwrite semantics (a later column whose label renders to
an existing key replaces that entry). -/
def infer (df : DataFrame) : List (String × ColumnTypeInfo) :=
  df.columnEntries.foldl
    (fun m p => dictInsert m p.1.render (inferColumn p.1 p.2)) []

end TypeInferencer

-- ---------------------------------------------------------------------------
-- Audit entries (src/pipeline/audit.py, src/pipeline/schemas.py)
-- ---------------------------------------------------------------------------

/-- An `AuditEntry` as appended by `AuditLogger.log`.  The wall-clock
`timestamp` field is excluded from the embedding (the spec itself excludes
timestamps from every behavioural comparison), and the free-form `details`
dict is not modelled: no verified property mentions it. -/
structure AuditEntry where
  step : String
  action : String
  column : Option String := none
  rows_affected : Option Int := none
  step_version : Option String := none
deriving Repr, DecidableEq

/-- `PIPELINE_VERSION`. -/
def PIPELINE_VERSION : String := "0.1.0"

-- ---------------------------------------------------------------------------
-- Layout detection and normalisation (src/pipeline/layout.py)
-- ---------------------------------------------------------------------------

/-- The quarter part `Q[1-4]` (case-insensitive) of the period regex. -/
def isQuarterChars : List Char → Bool
  | [q, d] => (q == 'Q' || q == 'q') && (d == '1' || d == '2' || d == '3' || d == '4')
  | _ => false

/-- The tail of the period regex after the four year digits:
empty, or an optional `[-_/]` separator followed by `Q[1-4]`. -/
def periodTailChars (l : List Char) : Bool :=
  l.isEmpty || isQuarterChars l ||
    (match l with
     | c :: rest => (c == '-' || c == '_' || c == '/') && isQuarterChars rest
     | [] => false)

/-- `_looks_like_period`: the header matches
`^(19|20)\d{2}([-_/]?Q[1-4])?$` case-insensitively. -/
def looks_like_period (s : String) : Bool :=
  match s.toList with
  | c1 :: c2 :: c3 :: c4 :: rest =>
      ((c1 == '1' && c2 == '9') || (c1 == '2' && c2 == '0')) &&
        c3.isDigit && c4.isDigit && periodTailChars rest
  | _ => false

/-- `df.sample(k)`: a random subset of rows.  The chosen row indices are an
explicit parameter so that independence of the choice can be stated. -/
def DataFrame.sampleRows (df : DataFrame) (idx : List Nat) : DataFrame :=
  ⟨df.cols, idx.filterMap (fun i => df.rows.get? i)⟩

/-- `detect_layout`: wide when at least two headers look like periods; else
long when some column parses as a date for more than 20% of rows; else
unknown.  `sampleIdx` models the random rows drawn by `df.sample` — the
source only ever reads `.columns` off the sample, so the draw is
irrelevant (proved below as `detect_layout_sample_irrel`). -/
def detect_layout (df : DataFrame) (sampleIdx : List Nat) : String :=
  let period_like := df.cols.filter (fun c => looks_like_period c.render)
  if period_like.length ≥ 2 then "wide"
  else
    let sample_cols :=
      if df.rows.length > 100 then (df.sampleRows sampleIdx).cols else df.cols
    if sample_cols.any (fun c =>
        ratio ((df.labelValues c).countP Cell.dateParseable) df.rows.length > 1 / 5)
    then "long"
    else "unknown"

/-- The `layout_info` dict built by `identify_metric_period`. -/
structure LayoutInfo where
  layout : String
  metric_column : Option ColName
  period_columns : List ColName
deriving Repr, DecidableEq

/-- `identify_metric_period`: period/metric columns per detected layout, with
the shared fallback to the first column not claimed as a period column (or
`str(df.columns[0])`).  Note the wide branch stores *stringified* headers in
`period_columns`, exactly as the source's `period_columns.append(str(col))`. -/
def identify_metric_period (df : DataFrame) (layout : String) : LayoutInfo :=
  let pm : List ColName × Option ColName :=
    if layout = "wide" then
      ((df.cols.filter (fun c => looks_like_period c.render)).map
          (fun c => ColName.str c.render),
       df.cols.find? (fun c => !isNumericDtypeVals (df.labelValues c)))
    else if layout = "long" then
      let date_cols := df.cols.filter
        (fun c => (df.labelValues c).countP Cell.dateParseable ≠ 0)
      (date_cols, df.cols.find? (fun c => !date_cols.contains c))
    else ([], none)
  let metric : Option ColName :=
    match pm.2, df.cols with
    | some c, _ => some c
    | none, [] => none
    | none, c0 :: _ =>
        some ((df.cols.find? (fun c => !pm.1.contains c)).getD
          (ColName.str c0.render))
  ⟨layout, metric, pm.1⟩

/-- The melted `var` column holds the original column labels as values. -/
def labelToCell : ColName → Cell
  | .str s => .str s
  | .int n => .int n
  | .num q => .num q

/-- `df.melt(id_vars=[idVar], value_vars, var_name="period",
value_name="value")`: one block of rows per value var, in order; raises
`KeyError` (modelled as `Except.error`) when a named column is absent. -/
def DataFrame.melt (df : DataFrame) (idVar : ColName) (valueVars : List ColName) :
    Except String DataFrame :=
  match df.cols.indexOf? idVar with
  | none => .error "KeyError: id_vars not present"
  | some i =>
      if valueVars.any (fun v => (df.cols.indexOf? v).isNone) then
        .error "KeyError: value_vars not present"
      else
        .ok ⟨[idVar, .str "period", .str "value"],
          valueVars.flatMap (fun v =>
            match df.cols.indexOf? v with
            | some j => df.rows.map (fun r => [r.getD i .null, labelToCell v, r.getD j .null])
            | none => [])⟩

/-- `df.rename(columns={src: dst})`: every column labelled `src` is
relabelled `dst`. -/
def DataFrame.renameCol (df : DataFrame) (src dst : ColName) : DataFrame :=
  ⟨df.cols.map (fun c => if c = src then dst else c), df.rows⟩

/-- Python truthiness of a column label (`layout_info.get("metric_column") or
"metric"` replaces falsy labels by `"metric"`). -/
def ColName.isFalsy : ColName → Bool
  | .str s => s = ""
  | .int n => n = 0
  | .num q => q = 0

/-- `to_long`: wide input is melted to `[metric, period, value]`; long and
unknown input is passed through with the metric column renamed to `metric`
when present.  Returns the dataframe together with the audit entries logged
(`melt_wide` / `pass_through_long` / `unknown_layout`). -/
def to_long (df : DataFrame) (li : LayoutInfo) :
    Except String (DataFrame × List AuditEntry) :=
  let metric : ColName :=
    match li.metric_column with
    | some c => if c.isFalsy then .str "metric" else c
    | none => .str "metric"
  if li.layout = "wide" then
    match df.melt metric li.period_columns with
    | .error e => .error e
    | .ok long_df =>
        .ok (long_df.renameCol metric (.str "metric"),
          [{ step := "normaliser", action := "melt_wide",
             rows_affected := some (long_df.rows.length : Int) }])
  else if li.layout = "long" then
    let long_df :=
      if df.cols.contains metric ∧ metric ≠ .str "metric" then
        df.renameCol metric (.str "metric")
      else df
    .ok (long_df,
      [{ step := "normaliser", action := "pass_through_long",
         rows_affected := some (long_df.rows.length : Int) }])
  else
    let long_df :=
      if df.cols.contains metric ∧ metric ≠ .str "metric" then
        df.renameCol metric (.str "metric")
      else df
    .ok (long_df,
      [{ step := "normaliser", action := "unknown_layout",
         rows_affected := some (long_df.rows.length : Int) }])

-- ---------------------------------------------------------------------------
-- Readers (src/pipeline/reader.py)
-- ---------------------------------------------------------------------------

/-- `ReaderConfig` (`max_size_mb` defaults to 50). -/
structure ReaderConfig where
  max_size_mb : Nat := 50
deriving Repr, DecidableEq

/-- `SheetMeta`. -/
structure SheetMeta where
  source_path : String
  sheet : String
  nrows : Nat
  ncols : Nat
deriving Repr, DecidableEq

/-- A `(sheet_name, df, meta)` tuple. -/
abbrev DataSheet := String × DataFrame × SheetMeta

namespace ExcelReader

/-- `ExcelReader(path, config)` followed by `.read()`: the constructor
raises `ValueError` when the file size (`fileSize`, in bytes, modelling
`path.stat().st_size`) exceeds `max_size_mb * 1_048_576`; otherwise one
`DataSheet` per workbook sheet is returned.  The workbook content is the
explicit `sheets` parameter. -/
def read (path : String) (fileSize : Nat) (cfg : ReaderConfig)
    (sheets : List (String × DataFrame)) : Except String (List DataSheet) :=
  if fileSize > cfg.max_size_mb * 1048576 then
    .error ("File " ++ path ++ " exceeds " ++ toString cfg.max_size_mb ++ " MB limit.")
  else
    .ok (sheets.map (fun p =>
      (p.1, p.2, ⟨path, p.1, p.2.rows.length, p.2.cols.length⟩)))

end ExcelReader

namespace CSVReader

/-- `CSVReader(path, config)` followed by `.read()`: the source performs no
size check whatsoever — `fileSize` and `cfg` are accepted and ignored, exactly
as `CSVReader.__init__` stores the config without consulting it.  The parsed
content is the explicit `df` parameter; the single sheet is named by the
path stem. -/
def read (path stem : String) (fileSize : Nat) (cfg : ReaderConfig)
    (df : DataFrame) : Except String (List DataSheet) :=
  .ok [(stem, df, ⟨path, stem, df.rows.length, df.cols.length⟩)]

end CSVReader

-- ---------------------------------------------------------------------------
-- Cleaner (src/pipeline/cleaner.py)
-- ---------------------------------------------------------------------------

/-- `CleanerStepVersion`. -/
def CleanerStepVersion : String := "0.0.1"

/-- `CleanerConfig`.  `currency_symbols` is configuration surface the source
never reads (the currency regex is hard-coded); it is carried for fidelity. -/
structure CleanerConfig where
  missing_numeric : String := "median"
  missing_text : String := "drop"
  currency_symbols : List String := ["$", "€", "£"]
deriving Repr, DecidableEq

/-- Scan for the next `)`: returns the characters before it and those after
it (the `[^)]+` capture machinery of `_NEG_PAREN_RE`). -/
def splitAtCloseParen : List Char → Option (List Char × List Char)
  | [] => none
  | c :: rest =>
      if c = ')' then some ([], rest)
      else (splitAtCloseParen rest).map (fun p => (c :: p.1, p.2))

/-- Fuel-indexed body of the paren-negative rewrite.  Each recursive call
shortens the character list, so fuel equal to the list length never runs
out; the fuel only makes the recursion structural (hence kernel-reducible). -/
def parenRewriteFuel : Nat → List Char → List Char
  | _, [] => []
  | 0, l => l
  | fuel + 1, c :: rest =>
      if c = '(' then
        match splitAtCloseParen rest with
        | some (cap, tl) =>
            if cap.isEmpty then c :: parenRewriteFuel fuel rest
            else '-' :: (cap ++ parenRewriteFuel fuel tl)
        | none => c :: parenRewriteFuel fuel rest
      else c :: parenRewriteFuel fuel rest

/-- `re.sub(r"\(([^)]+)\)", r"-\1", s)` on the character list: each
parenthesised non-empty run of non-`)` characters is replaced by `-` followed
by the run, scanning left to right and resuming after each replacement. -/
def parenRewriteChars (l : List Char) : List Char :=
  parenRewriteFuel l.length l

/-- `_clean_currency` on one rendered value: rewrite `(X)` to `-X`, strip
the currency symbols `$ € £`, strip commas, then `pd.to_numeric(...,
errors="coerce")`. -/
def cleanCurrencyStr (s : String) : Option PyRat :=
  let s1 := parenRewriteChars s.toList
  let s2 := s1.filter (fun c => !(c == '$' || c == '€' || c == '£'))
  let s3 := s2.filter (fun c => c ≠ ',')
  parsePyNumber (String.mk s3)

/-- `_clean_currency` elementwise on a cell (`astype(str)` first, NaN on
parse failure). -/
def cleanCurrencyCell (c : Cell) : Cell :=
  match cleanCurrencyStr c.pyStr with
  | some q => .num q
  | none => .null

/-- `_clean_percentage` elementwise: strip every `%` and comma, parse, and
divide by 100. -/
def cleanPercentageCell (c : Cell) : Cell :=
  let s := (c.pyStr.toList.filter (fun ch => ch ≠ '%')).filter (fun ch => ch ≠ ',')
  match parsePyNumber (String.mk s) with
  | some q => .num (q / 100)
  | none => .null

/-- The date part of an ISO `YYYY-MM-DD` string. -/
def isoToDate (s : String) : Option (Nat × Nat × Nat) :=
  match s.toList with
  | [y1, y2, y3, y4, '-', m1, m2, '-', d1, d2] =>
      some (digitsVal [y1, y2, y3, y4], digitsVal [m1, m2], digitsVal [d1, d2])
  | _ => none

/-- `pd.to_datetime(value, errors="coerce")` elementwise.  Ints/floats are
epoch-nanosecond offsets, which for every magnitude occurring here lands on
1970-01-01; unparseable values coerce to NaT. -/
def toDatetimeCell (c : Cell) : Cell :=
  match c with
  | .str s =>
      if isIsoDateString s then
        match isoToDate s with
        | some (y, m, d) => .date y m d
        | none => .null
      else .null
  | .date y m d => .date y m d
  | .int _ => .date 1970 1 1
  | .num _ => .date 1970 1 1
  | .null => .null

/-- `pd.to_numeric(value, errors="coerce")` elementwise. -/
def toNumericCell (c : Cell) : Cell :=
  match c with
  | .null => .null
  | .str s =>
      match parsePyNumber s with
      | some q => .num q
      | none => .null
  | .int n => .int n
  | .num q => .num q
  | .date _ _ _ => .null

/-- The numeric values of a column, nulls excluded. -/
def numVals (vals : List Cell) : List PyRat :=
  vals.filterMap (fun c =>
    match c with
    | .int n => some ((n : PyRat))
    | .num q => some q
    | _ => none)

/-- `Series.mean()` over the non-null values (`none` models NaN when the
column has no data, in which case `fillna` leaves nulls in place). -/
def listMean (l : List PyRat) : Option PyRat :=
  if l.length = 0 then none else some (PyRat.qSum l / (l.length : PyRat))

/-- `Series.median()` over the non-null values: middle element of the sorted
values, or the average of the two middle elements. -/
def listMedian (l : List PyRat) : Option PyRat :=
  let s := insertionSort (fun a b => a ≤ b) l
  let n := s.length
  if n = 0 then none
  else if n % 2 = 1 then some (s.getD (n / 2) 0)
  else some ((s.getD (n / 2 - 1) 0 + s.getD (n / 2) 0) / 2)

/-- `Series.fillna(q)` on a numeric column. -/
def fillNulls (vals : List Cell) (q : PyRat) : List Cell :=
  vals.map (fun c => if c.isNull then .num q else c)

/-- `Series.ffill()`: each null takes the previous non-null value; leading
nulls stay null. -/
def ffillAux : Option Cell → List Cell → List Cell
  | _, [] => []
  | prev, c :: rest =>
      if c.isNull then
        match prev with
        | some p => p :: ffillAux (some p) rest
        | none => c :: ffillAux prev rest
      else c :: ffillAux (some c) rest

/-- Replace the cells of column `i`. -/
def DataFrame.setCol (df : DataFrame) (i : Nat) (vals : List Cell) : DataFrame :=
  ⟨df.cols, (df.rows.zip vals).map (fun p => p.1.set i p.2)⟩

/-- The body of `clean_dataframe`'s `for col, info in type_info.items()`
loop for one entry: type-driven coercion (currency / percentage / date /
numeric) with its audit entry, then missing-value handling on the coerced
column.  `df_out[col]` indexes by the stringified key, so a column whose
original label is not that string raises `KeyError`. -/
def cleanColumn (cfg : CleanerConfig) (st : DataFrame × List AuditEntry)
    (kv : String × ColumnTypeInfo) : Except String (DataFrame × List AuditEntry) :=
  let df := st.1
  match df.cols.indexOf? (ColName.str kv.1) with
  | none => .error ("KeyError: " ++ kv.1)
  | some i =>
      let vals := df.colValues i
      let ct := kv.2.column_type
      let coerced : DataFrame × List AuditEntry :=
        if ct = "currency" then
          let newVals := vals.map cleanCurrencyCell
          let before_na : Int := vals.countP Cell.isNull
          let after_na : Int := newVals.countP Cell.isNull
          (df.setCol i newVals,
           st.2 ++ [⟨"cleaner", "clean_currency", some kv.1,
             some (before_na - after_na), some CleanerStepVersion⟩])
        else if ct = "percentage" then
          (df.setCol i (vals.map cleanPercentageCell),
           st.2 ++ [⟨"cleaner", "clean_percentage", some kv.1, none,
             some CleanerStepVersion⟩])
        else if ct = "date" then
          (df.setCol i (vals.map toDatetimeCell),
           st.2 ++ [⟨"cleaner", "parse_date", some kv.1, none,
             some CleanerStepVersion⟩])
        else if ct = "numeric" then
          (df.setCol i (vals.map toNumericCell), st.2)
        else (df, st.2)
      let df1 := coerced.1
      let vals1 := df1.colValues i
      let df2 :=
        if isNumericDtypeVals vals1 then
          if cfg.missing_numeric = "mean" then
            match listMean (numVals vals1) with
            | some m => df1.setCol i (fillNulls vals1 m)
            | none => df1
          else if cfg.missing_numeric = "median" then
            match listMedian (numVals vals1) with
            | some m => df1.setCol i (fillNulls vals1 m)
            | none => df1
          else if cfg.missing_numeric = "zero" then
            df1.setCol i (fillNulls vals1 0)
          else df1
        else
          if cfg.missing_text = "drop" then df1
          else if cfg.missing_text = "ffill" then
            df1.setCol i (ffillAux none vals1)
          else if cfg.missing_text = "none" then
            df1.setCol i (vals1.map (fun c => if c.isNull then .str "" else c))
          else df1
      .ok (df2, coerced.2)

/-- `clean_dataframe`: re-run type inference on the normalised table, apply
`cleanColumn` per inferred entry, then — when either missing-value strategy
is `drop` — remove every row still containing a null and log one
`drop_na_rows` entry with the row-count delta. -/
def clean_dataframe (df : DataFrame) (cfg : CleanerConfig) :
    Except String (DataFrame × List AuditEntry) := do
  let ti := TypeInferencer.infer df
  let res ← ti.foldlM (cleanColumn cfg) (df, [])
  if cfg.missing_numeric = "drop" ∨ cfg.missing_text = "drop" then
    let before := res.1.rows.length
    let kept := res.1.rows.filter (fun r => !r.any Cell.isNull)
    .ok (⟨res.1.cols, kept⟩,
      res.2 ++ [⟨"cleaner", "drop_na_rows", none,
        some ((before : Int) - (kept.length : Int)), none⟩])
  else
    pure res

-- ---------------------------------------------------------------------------
-- Profiler (src/pipeline/profiler.py)
-- ---------------------------------------------------------------------------

/-- `ProfilerStepVersion`. -/
def ProfilerStepVersion : String := "0.1.0"

/-- `ProfilerConfig` (`mode` defaults to `builtin`; `correlation` is carried
but never read by the source). -/
structure ProfilerConfig where
  mode : String := "builtin"
  correlation : Bool := true
deriving Repr, DecidableEq

/-- Numpy dtype name of a column, as `df.dtypes.astype(str)` renders it. -/
def dtypeStr (vals : List Cell) : String :=
  if !vals.isEmpty && vals.all (fun c => match c with | .int _ => true | _ => false) then
    "int64"
  else if isNumericDtypeVals vals then "float64"
  else if !vals.isEmpty &&
      vals.all (fun c => match c with | .date _ _ _ => true | .null => true | _ => false) then
    "datetime64[ns]"
  else "object"

/-- The `basic_stats` dict of `_basic_stats`. -/
structure BasicStats where
  rows : Nat
  columns : Nat
  data_types : List (ColName × String)
  missing_values : List (ColName × Nat)
deriving Repr, DecidableEq

/-- `_basic_stats`. -/
def basic_stats (df : DataFrame) : BasicStats :=
  ⟨df.rows.length, df.cols.length,
   df.columnEntries.map (fun p => (p.1, dtypeStr p.2)),
   df.columnEntries.map (fun p => (p.1, p.2.countP Cell.isNull))⟩

/-- `Series.quantile(p)` with pandas' linear interpolation, on an already
sorted non-empty list. -/
def quantileInterp (s : List PyRat) (p : PyRat) : PyRat :=
  let n := s.length
  if n = 0 then 0
  else
    let pos : PyRat := p * ((n : PyRat) - 1)
    let lo : Nat := pos.floor.toNat
    let frac := pos - (lo : PyRat)
    let a := s.getD lo 0
    let b := s.getD (min (lo + 1) (n - 1)) 0
    a + frac * (b - a)

/-- A per-column `distribution` value of `_value_distributions`. -/
inductive Distribution where
  | numericDist (dmin q1 median q3 dmax : PyRat)
  | noData
  | topValues (tv : List (Cell × Nat))
deriving Repr, DecidableEq

/-- Distinct values in first-occurrence order (Python `dict` /
`collections.Counter` iteration order). -/
def firstOccurrences {α : Type} [DecidableEq α] (vals : List α) : List α :=
  vals.foldl (fun acc c => if c ∈ acc then acc else acc ++ [c]) []

/-- `Counter(values).most_common(3)`: counts in descending order, ties kept
in first-occurrence order (Python's sort is stable, as is `insertionSort`). -/
def topCounts (vals : List Cell) : List (Cell × Nat) :=
  (insertionSort (fun a b => b.2 ≤ a.2)
    ((firstOccurrences vals).map (fun c => (c, vals.count c)))).take 3

/-- `_value_distributions` for one column. -/
def distributionOf (vals : List Cell) : Distribution :=
  if isNumericDtypeVals vals then
    let nn := numVals vals
    if nn.length > 0 then
      let s := insertionSort (fun a b => a ≤ b) nn
      .numericDist (s.getD 0 0) (quantileInterp s (1 / 4)) (quantileInterp s (1 / 2))
        (quantileInterp s (3 / 4)) (s.getD (s.length - 1) 0)
    else .noData
  else .topValues (topCounts (vals.filter (fun c => !c.isNull)))

/-- One element of the profile's `columns` list. -/
structure ColumnProfile where
  name : ColName
  dtype : String
  null_count : Nat
  unique_count : Nat
  distribution : Distribution
deriving Repr, DecidableEq

/-- `ProfileJSON`.  `basic_stats = none` models the empty dict `{}` of the
`none` mode.  The Pearson matrix `_correlations` computes is discarded by
`profile_dataframe` (the `ProfileJSON` schema has no correlation field), so
that dead pure computation is not embedded. -/
structure ProfileJSON where
  basic_stats : Option BasicStats
  periods : List Cell
  metrics : List Cell
  columns : List ColumnProfile
  sample_data : List (List (ColName × Cell))
deriving Repr, DecidableEq

/-- `df.to_dict("records")`: one Python dict per row (duplicate labels
collapse, last value wins, first-occurrence key order). -/
def toRecords (df : DataFrame) : List (List (ColName × Cell)) :=
  df.rows.map (fun r =>
    (df.cols.zip r).foldl (fun m p => dictInsert m p.1 p.2) [])

/-- `df.head(3).to_dict("records")`. -/
def head3Records (df : DataFrame) : List (List (ColName × Cell)) :=
  toRecords ⟨df.cols, df.rows.take 3⟩

/-- The builtin profile computed at the end of `profile_dataframe`:
basic stats, per-column info with distributions, and the first three rows
with stringified keys. -/
def builtinProfile (df : DataFrame) : ProfileJSON :=
  ⟨some (basic_stats df), [], [],
   df.columnEntries.map (fun p =>
     ⟨p.1, dtypeStr p.2, p.2.countP Cell.isNull, nunique p.2, distributionOf p.2⟩),
   (head3Records df).map (fun rec =>
     rec.foldl (fun m p => dictInsert m (ColName.str p.1.render) p.2) [])⟩

/-- Availability/behaviour of the optional `ydata_profiling` engine:
`unavailable` models `ImportError` on import, `fails` models any exception
raised while the engine runs, `succeeds` a successful run. -/
inductive YdataStatus where
  | unavailable
  | fails (msg : String)
  | succeeds
deriving Repr, DecidableEq

/-- `profile_dataframe`: mode `none` returns an empty profile; mode `ydata`
uses the external engine when importable — an `ImportError` is the only
exception caught (logged, then the builtin path runs), any other engine
failure propagates to the caller; every other mode takes the builtin path.
Returns the profile together with the audit entries logged. -/
def profile_dataframe (df : DataFrame) (mode : String) (ydata : YdataStatus) :
    Except String (ProfileJSON × List AuditEntry) :=
  if mode = "none" then
    .ok (⟨none, [], [], [], []⟩,
      [⟨"profiler", "skip", none, some 0, some ProfilerStepVersion⟩])
  else
    match (if mode = "ydata" then some ydata else none) with
    | some .succeeds =>
        .ok (⟨some (basic_stats df), [], [], [], head3Records df⟩,
          [⟨"profiler", "ydata_profile", none, some (df.rows.length : Int),
            some ProfilerStepVersion⟩])
    | some (.fails msg) => .error msg
    | some .unavailable =>
        .ok (builtinProfile df,
          [⟨"profiler", "ydata_not_installed", none, some 0, some ProfilerStepVersion⟩,
           ⟨"profiler", "builtin_profile", none, some (df.rows.length : Int),
             some ProfilerStepVersion⟩])
    | none =>
        .ok (builtinProfile df,
          [⟨"profiler", "builtin_profile", none, some (df.rows.length : Int),
            some ProfilerStepVersion⟩])

-- ---------------------------------------------------------------------------
-- Pipeline orchestrator (src/pipeline/pipeline.py)
-- ---------------------------------------------------------------------------

/-- `PipelineConfig`. -/
structure PipelineConfig where
  reader : ReaderConfig := {}
  cleaner : CleanerConfig := {}
  profiler : ProfilerConfig := {}
deriving Repr, DecidableEq

/-- `AuditTrail` as produced by `AuditLogger.to_trail` (timestamps are not
modelled, see `AuditEntry`). -/
structure AuditTrail where
  pipeline_version : String
  entries : List AuditEntry
deriving Repr, DecidableEq

/-- A canonical long record as assembled by `Pipeline._run`. -/
structure LongRow where
  metric : Option Cell
  period : Option String
  value : Option PyRat
  extras : List (ColName × Cell)
deriving Repr, DecidableEq

/-- `str(ts.date())` for a Timestamp cell. -/
def dateOnlyStr (y m d : Nat) : String :=
  padZeros (toString y) 4 ++ "-" ++ padZeros (toString m) 2 ++ "-" ++
    padZeros (toString d) 2

/-- `float(v)`: succeeds on numbers (NaN included — modelled as `none`),
parses numeric strings, raises `ValueError` on other strings and `TypeError`
on Timestamps. -/
def floatOfCell : Cell → Except String (Option PyRat)
  | .null => .ok none
  | .int n => .ok (some (n : PyRat))
  | .num q => .ok (some q)
  | .str s =>
      match parsePyNumber s with
      | some q => .ok (some q)
      | none =>
          let low := (stripChars s.toList).map Char.toLower
          if low = "nan".toList || low = "inf".toList ||
             low = "-inf".toList || low = "infinity".toList then
            .ok none
          else .error ("ValueError: could not convert string to float: " ++ s)
  | .date _ _ _ => .error "TypeError: float() argument"

/-- One record of the `clean_records` loop in `Pipeline._run`: the `period`
value is stringified (date part for Timestamps, `str(v)` otherwise, `None`
kept), the `value` is passed through `float(...)` — which raises on
non-numeric strings — and all other keys become `extras`. -/
def buildLongRow (rec : List (ColName × Cell)) : Except String LongRow := do
  let metric := dictFind rec (ColName.str "metric")
  let period : Option String :=
    (dictFind rec (ColName.str "period")).map (fun c =>
      match c with
      | .str s => s
      | .date y m d => dateOnlyStr y m d
      | .null => "nan"
      | .int n => toString n
      | .num q => ratPyStr q)
  let value ← match dictFind rec (ColName.str "value") with
    | none => pure none
    | some c => floatOfCell c
  pure ⟨metric, period, value,
    rec.filter (fun p =>
      p.1 ≠ ColName.str "metric" ∧ p.1 ≠ ColName.str "period" ∧
      p.1 ≠ ColName.str "value")⟩

/-- One per-sheet `PipelineResult`. -/
structure PipelineResult where
  sheet : String
  meta : SheetMeta
  clean_data : List LongRow
  profile : ProfileJSON
  audit : AuditTrail
deriving Repr, DecidableEq

/-- The body of `Pipeline._run`'s per-sheet loop: type inference (logged),
layout detection and normalisation, cleaning, profiling, and record
assembly.  Any exception raised along the way propagates (there is no
per-sheet isolation in the source).  `sampleIdx` is the random row draw of
`detect_layout`; `ydata` the external profiler's availability. -/
def processSheet (cfg : PipelineConfig) (ydata : YdataStatus) (sampleIdx : List Nat)
    (name : String) (df : DataFrame) (meta : SheetMeta) :
    Except String PipelineResult := do
  let _ti := TypeInferencer.infer df
  let e1 : AuditEntry :=
    ⟨"type_inferencer", "infer", none, some (df.rows.length : Int),
      some TypeInferencer.VERSION⟩
  let layout := detect_layout df sampleIdx
  let li := identify_metric_period df layout
  let e2 : AuditEntry := ⟨"layout", "detect", none, none, none⟩
  let nrm ← to_long df li
  let cln ← clean_dataframe nrm.1 cfg.cleaner
  let prf ← profile_dataframe cln.1 cfg.profiler.mode ydata
  let records ← (toRecords cln.1).mapM buildLongRow
  pure ⟨name, meta, records, prf.1,
    ⟨PIPELINE_VERSION, [e1, e2] ++ nrm.2 ++ cln.2 ++ prf.2⟩⟩

/-- `Pipeline._run`: sheets processed in order; a raise while processing any
sheet propagates out of the loop, so the caller receives either every
sheet's result or none. -/
def runSheets (cfg : PipelineConfig) (ydata : YdataStatus) (sampleIdx : List Nat) :
    List DataSheet → Except String (List PipelineResult)
  | [] => .ok []
  | sh :: rest =>
      match processSheet cfg ydata sampleIdx sh.1 sh.2.1 sh.2.2 with
      | .error e => .error e
      | .ok r =>
          match runSheets cfg ydata sampleIdx rest with
          | .error e => .error e
          | .ok rs => .ok (r :: rs)

/-- Decidable equality for `Except` results, so concrete pipeline outcomes
can be checked by `decide`. -/
instance {ε α : Type} [DecidableEq ε] [DecidableEq α] : DecidableEq (Except ε α) :=
  fun a b =>
    match a, b with
    | .error e, .error f =>
        if h : e = f then .isTrue (by rw [h]) else .isFalse (by simp [h])
    | .ok x, .ok y =>
        if h : x = y then .isTrue (by rw [h]) else .isFalse (by simp [h])
    | .error _, .ok _ => .isFalse (by simp)
    | .ok _, .error _ => .isFalse (by simp)

-- ---------------------------------------------------------------------------
-- Spec-side definitions and concrete inputs used by the verification
-- ---------------------------------------------------------------------------

/-- The audit-relevant shape of an entry: step, action, column, whether a
`rows_affected` count is present, and step version. -/
def auditShape (e : AuditEntry) :
    String × String × Option String × Bool × Option String :=
  (e.step, e.action, e.column, e.rows_affected.isSome, e.step_version)

/-- The audit-entry shape one inference entry contributes during cleaning:
exactly one entry for a currency, percentage or date column — only the
currency entry carrying a `rows_affected` count — and none otherwise. -/
def coercionEntryShape (kv : String × ColumnTypeInfo) :
    List (String × String × Option String × Bool × Option String) :=
  if kv.2.column_type = "currency" then
    [("cleaner", "clean_currency", some kv.1, true, some CleanerStepVersion)]
  else if kv.2.column_type = "percentage" then
    [("cleaner", "clean_percentage", some kv.1, false, some CleanerStepVersion)]
  else if kv.2.column_type = "date" then
    [("cleaner", "parse_date", some kv.1, false, some CleanerStepVersion)]
  else []

/-- Spec-side description (for comparison with `clean_dataframe`) of the
audit entries one cleaning run produces: one entry per
currency/percentage/date-typed column in inference order — only the currency
entry carrying a `rows_affected` count — plus one final `drop_na_rows` entry
(with a count) exactly when either missing-value strategy is `drop`. -/
def expectedCleanerShape (ti : List (String × ColumnTypeInfo))
    (cfg : CleanerConfig) :
    List (String × String × Option String × Bool × Option String) :=
  ti.flatMap coercionEntryShape ++
  (if cfg.missing_numeric = "drop" ∨ cfg.missing_text = "drop" then
    [("cleaner", "drop_na_rows", none, true, none)]
  else [])

/-- A long-layout table: a text metric column and an ISO date column. -/
def sampleLongDf : DataFrame :=
  ⟨[.str "Item", .str "Date"],
   [[.str "Total Assets", .str "2023-01-15"],
    [.str "Net Income", .str "2023-06-30"]]⟩

/-- Two distinct columns — the int `2024` and the string `"2024"` — whose
labels coincide once rendered as strings. -/
def collidingColsDf : DataFrame :=
  ⟨[.int 2024, .str "2024"], [[.null, .null]]⟩

/-- A table with a single percentage-typed column. -/
def percentDf : DataFrame := ⟨[.str "p"], [[.str "25%"], [.str "30%"]]⟩

/-- A sheet whose `value` column holds a non-numeric string: `Pipeline._run`
raises `ValueError` in its record-building loop on this sheet. -/
def textValueDf : DataFrame :=
  ⟨[.str "metric", .str "value"], [[.str "A", .str "abc"]]⟩

/-- A sheet the pipeline processes without error. -/
def numericValueDf : DataFrame :=
  ⟨[.str "metric", .str "value"], [[.str "B", .str "5"]]⟩

/-- Sheet metadata for `textValueDf`. -/
def textValueMeta : SheetMeta := ⟨"book.xlsx", "bad", 1, 2⟩

/-- Sheet metadata for `numericValueDf`. -/
def numericValueMeta : SheetMeta := ⟨"book.xlsx", "good", 1, 2⟩

/-- A tiny single-cell table. -/
def smallDf : DataFrame := ⟨[.str "a"], [[.int 1]]⟩

-- ---------------------------------------------------------------------------
-- Helper lemmas
-- ---------------------------------------------------------------------------

theorem keys_dictInsert {κ ν : Type} [DecidableEq κ] (m : List (κ × ν)) (k : κ) (v : ν) :
    (dictInsert m k v).map Prod.fst =
      if k ∈ m.map Prod.fst then m.map Prod.fst else m.map Prod.fst ++ [k] := by
  induction m with
  | nil => simp [dictInsert]
  | cons p rest ih =>
      obtain ⟨k0, v0⟩ := p
      by_cases hk : k0 = k
      · subst hk
        simp [dictInsert]
      · simp only [dictInsert, if_neg hk, List.map_cons]
        rw [ih]
        by_cases hmem : k ∈ rest.map Prod.fst
        · simp [hmem, List.mem_cons]
        · have hk2 : ¬(k = k0) := fun h => hk h.symm
          simp [hmem, List.mem_cons, hk2]

theorem nodup_keys_dictInsert {κ ν : Type} [DecidableEq κ] (m : List (κ × ν)) (k : κ)
    (v : ν) (h : (m.map Prod.fst).Nodup) : ((dictInsert m k v).map Prod.fst).Nodup := by
  rw [keys_dictInsert]
  split
  · exact h
  · next hmem =>
      rw [List.nodup_append]
      refine ⟨h, List.nodup_singleton k, ?_⟩
      intro a ha hak
      rw [List.mem_singleton] at hak
      exact hmem (hak ▸ ha)

theorem infer_keys_aux (l : List (ColName × List Cell)) (m : List (String × ColumnTypeInfo)) :
    ((l.foldl (fun acc p => dictInsert acc p.1.render (inferColumn p.1 p.2)) m).map Prod.fst) =
      l.foldl (fun acc p => if p.1.render ∈ acc then acc else acc ++ [p.1.render])
        (m.map Prod.fst) := by
  induction l generalizing m with
  | nil => rfl
  | cons p rest ih =>
      simp only [List.foldl_cons]
      rw [ih, keys_dictInsert]

theorem nodup_infer_aux (l : List (ColName × List Cell)) (m : List (String × ColumnTypeInfo))
    (h : (m.map Prod.fst).Nodup) :
    ((l.foldl (fun acc p => dictInsert acc p.1.render (inferColumn p.1 p.2)) m).map Prod.fst).Nodup := by
  induction l generalizing m with
  | nil => exact h
  | cons p rest ih =>
      simp only [List.foldl_cons]
      exact ih _ (nodup_keys_dictInsert m _ _ h)

theorem columnEntries_fst_render (df : DataFrame) :
    df.columnEntries.map (fun p => p.1.render) = df.cols.map ColName.render := by
  unfold DataFrame.columnEntries
  rw [List.map_map]
  have hcomp : ((fun p : ColName × List Cell => p.1.render) ∘
      (fun p : Nat × ColName => (p.2, df.colValues p.1))) =
      (ColName.render ∘ Prod.snd) := rfl
  rw [hcomp, ← List.map_map, List.enum_map_snd]

theorem splitAtCloseParen_no_close (x ys : List Char) (hx : ∀ c ∈ x, c ≠ ')') :
    splitAtCloseParen (x ++ ')' :: ys) = some (x, ys) := by
  induction x with
  | nil => simp [splitAtCloseParen]
  | cons c rest ih =>
      have hc : c ≠ ')' := hx c (by simp)
      have hrest := ih (fun d hd => hx d (by simp [hd]))
      simp only [List.cons_append, splitAtCloseParen, if_neg hc, List.append_eq, hrest]
      rfl

theorem parenRewriteFuel_wrap (f : Nat) (x : List Char) (hne : x ≠ [])
    (hx : ∀ c ∈ x, c ≠ ')') :
    parenRewriteFuel (f + 1) ('(' :: (x ++ [')'])) = '-' :: x := by
  obtain ⟨c0, x0, rfl⟩ : ∃ c0 x0, x = c0 :: x0 := by
    cases x with
    | nil => exact absurd rfl hne
    | cons a b => exact ⟨a, b, rfl⟩
  have hsplit : splitAtCloseParen ((c0 :: x0) ++ ')' :: []) = some (c0 :: x0, []) :=
    splitAtCloseParen_no_close (c0 :: x0) [] hx
  simp only [List.cons_append] at hsplit
  simp [parenRewriteFuel, hsplit]

-- ---------------------------------------------------------------------------
-- Claim theorems
-- ---------------------------------------------------------------------------

/-- C5: a column whose name is a 4-digit year — an int in `[1900, 2100]`, a
float with integral value in that range, or a digit string in that range —
is classified `period` with confidence `1.0` by the inference cascade no
matter what the column's cells are: the period rule fires first and
short-circuits, so no later heuristic can reclassify the column. -/
theorem period_name_wins_cascade (col : ColName) (vals : List Cell)
    (h : isYearName col = true) :
    inferColumn col vals =
      ⟨"period", 1,
        "Column name '" ++ pyStrip col.render ++ "' appears to be a year/period", []⟩ := by
  unfold inferColumn
  simp [h]

/-- Witness for C5 at the column name `"2024"` with cells that would match
the percentage and currency heuristics if those were ever consulted. -/
theorem period_name_wins_cascade_witness :
    isYearName (.str "2024") = true ∧
    inferColumn (.str "2024") [.str "70%", .str "$5"] =
      ⟨"period", 1,
        "Column name '" ++ pyStrip (ColName.str "2024").render ++
          "' appears to be a year/period", []⟩ :=
  ⟨by decide, period_name_wins_cascade (.str "2024") [.str "70%", .str "$5"] (by decide)⟩

/-- C6: currency cleaning first rewrites a parenthesised value `(X)` to
`-X` (shown in general for any non-empty parenthesis-free run of
characters), then strips currency symbols and thousands separators and
parses the rest as a float — so `"$1,200.50"` cleans to `1200.50` and
`"($500)"` cleans to `-500` — and an unparseable value cleans to null. -/
theorem currency_cleaning_spec (x : List Char) (hne : x ≠ [])
    (hx : ∀ c ∈ x, c ≠ ')') :
    parenRewriteChars ('(' :: (x ++ [')'])) = '-' :: x ∧
    cleanCurrencyCell (.str "$1,200.50") = .num (2401 / 2) ∧
    cleanCurrencyCell (.str "($500)") = .num (-500) ∧
    cleanCurrencyCell (.str "abc") = .null := by
  refine ⟨?_, by decide, by decide, by decide⟩
  unfold parenRewriteChars
  have hlen : ('(' :: (x ++ [')'])).length = (x.length + 1) + 1 := by
    simp
  rw [hlen]
  exact parenRewriteFuel_wrap (x.length + 1) x hne hx

/-- Witness for C6 with the run `500` inside the parentheses. -/
theorem currency_cleaning_spec_witness :
    parenRewriteChars ('(' :: (['5', '0', '0'] ++ [')'])) = '-' :: ['5', '0', '0'] ∧
    cleanCurrencyCell (.str "$1,200.50") = .num (2401 / 2) ∧
    cleanCurrencyCell (.str "($500)") = .num (-500) ∧
    cleanCurrencyCell (.str "abc") = .null :=
  currency_cleaning_spec ['5', '0', '0'] (by decide) (by decide)

/-- C9 counterexample: the int column `2024` and the string column `"2024"`
are two distinct columns, yet `infer` returns a single entry — the mapping
is keyed by `str(col)`, so the later column overwrites the earlier one
instead of yielding one `ColumnTypeInfo` per input column. -/
theorem infer_collapses_coinciding_labels :
    collidingColsDf.cols.length = 2 ∧
    (TypeInferencer.infer collidingColsDf).length = 1 := by
  exact ⟨rfl, by decide⟩

/-- C9 as amended: `infer` returns exactly one entry per *distinct rendered
column name*, keyed in first-occurrence order and without duplicate keys;
distinct columns whose labels coincide as strings therefore share a single
entry (the last such column's classification), and the mapping can have
fewer entries than the table has columns. -/
theorem infer_entries_per_rendered_name (df : DataFrame) :
    (TypeInferencer.infer df).map Prod.fst =
      firstOccurrences (df.cols.map ColName.render) ∧
    ((TypeInferencer.infer df).map Prod.fst).Nodup := by
  constructor
  · unfold TypeInferencer.infer
    rw [infer_keys_aux]
    unfold firstOccurrences
    rw [← columnEntries_fst_render, List.foldl_map]
    rfl
  · exact nodup_infer_aux df.columnEntries [] (by simp)

/-- C1 (code bug): on a long-layout input `to_long` is a pass-through that
only renames the metric column.  For this two-column long table the detected
layout is `long`, and the normalised output has columns `[metric, Date]` —
no `period` and no `value` column — contradicting `to_long`'s own docstring
`[metric, period, value, *extras]` and the spec invariant. -/
theorem to_long_long_layout_missing_period_value :
    detect_layout sampleLongDf [] = "long" ∧
    (to_long sampleLongDf (identify_metric_period sampleLongDf "long")).map
        (fun r => r.1.cols) = .ok [ColName.str "metric", ColName.str "Date"] ∧
    (to_long sampleLongDf (identify_metric_period sampleLongDf "long")).map
        (fun r => (r.1.cols.contains (ColName.str "period"),
                   r.1.cols.contains (ColName.str "value"))) = .ok (false, false) := by
  refine ⟨by decide, by decide, by decide⟩

/-- C3 counterexample: a 60 MB CSV source — oversize for the default 50 MB
limit — is read successfully and yields a sheet: `CSVReader` never consults
the size limit, so the claim fails for CSV sources. -/
theorem csv_oversized_read_succeeds :
    60 * 1048576 > ({} : ReaderConfig).max_size_mb * 1048576 ∧
    CSVReader.read "big.csv" "big" (60 * 1048576) {} smallDf =
      .ok [("big", smallDf, ⟨"big.csv", "big", 1, 1⟩)] := by
  exact ⟨by decide, rfl⟩

/-- C3 as amended: only the Excel reader enforces the size limit — an Excel
source over `max_size_mb` fails at reader construction with a size-limit
error and produces no sheets, while a CSV source is read regardless of its
size. -/
theorem size_limit_excel_only (path stem : String) (fileSize : Nat)
    (cfg : ReaderConfig) (sheets : List (String × DataFrame)) (df : DataFrame)
    (h : fileSize > cfg.max_size_mb * 1048576) :
    ExcelReader.read path fileSize cfg sheets =
      .error ("File " ++ path ++ " exceeds " ++ toString cfg.max_size_mb ++
        " MB limit.") ∧
    CSVReader.read path stem fileSize cfg df =
      .ok [(stem, df, ⟨path, stem, df.rows.length, df.cols.length⟩)] := by
  exact ⟨by simp [ExcelReader.read, h], rfl⟩

/-- Witness for the amended C3 at a 60 MB source and the default config. -/
theorem size_limit_excel_only_witness :
    60 * 1048576 > ({} : ReaderConfig).max_size_mb * 1048576 ∧
    (ExcelReader.read "big.xlsx" (60 * 1048576) {} [("s", smallDf)] =
      .error ("File " ++ "big.xlsx" ++ " exceeds " ++
        toString ({} : ReaderConfig).max_size_mb ++ " MB limit.") ∧
     CSVReader.read "big.xlsx" "big" (60 * 1048576) {} smallDf =
      .ok [("big", smallDf, ⟨"big.xlsx", "big", 1, 1⟩)]) :=
  ⟨by decide,
   size_limit_excel_only "big.xlsx" "big" (60 * 1048576) {} [("s", smallDf)]
     smallDf (by decide)⟩

/-- C4 counterexample: with the ydata engine selected and failing with
anything other than an import error, `profile_dataframe` propagates the
exception to the caller instead of logging and falling back — the claim
that profiling never raises is false. -/
theorem profiler_engine_failure_raises :
    profile_dataframe smallDf "ydata" (.fails "ydata crashed") =
      .error "ydata crashed" := by
  rfl

/-- C4 as amended: the fallback covers only engine *unavailability* — a
failed import is logged (`ydata_not_installed`) and the builtin profile is
computed and returned — while an engine that imports but fails raises to the
caller; every mode other than `ydata` returns without error. -/
theorem profiler_importerror_fallback (df : DataFrame) (mode : String)
    (st : YdataStatus) (msg : String) (hmode : mode ≠ "ydata") :
    profile_dataframe df "ydata" .unavailable =
      .ok (builtinProfile df,
        [⟨"profiler", "ydata_not_installed", none, some 0, some ProfilerStepVersion⟩,
         ⟨"profiler", "builtin_profile", none, some (df.rows.length : Int),
           some ProfilerStepVersion⟩]) ∧
    profile_dataframe df "ydata" (.fails msg) = .error msg ∧
    (profile_dataframe df mode st).isOk = true := by
  refine ⟨rfl, rfl, ?_⟩
  unfold profile_dataframe
  by_cases hnone : mode = "none"
  · simp [hnone, Except.isOk, Except.toBool]
  · simp [hnone, hmode, Except.isOk, Except.toBool]

/-- Witness for the amended C4 at a concrete table, engine failure message
and the builtin mode. -/
theorem profiler_importerror_fallback_witness :
    profile_dataframe smallDf "ydata" .unavailable =
      .ok (builtinProfile smallDf,
        [⟨"profiler", "ydata_not_installed", none, some 0, some ProfilerStepVersion⟩,
         ⟨"profiler", "builtin_profile", none, some (smallDf.rows.length : Int),
           some ProfilerStepVersion⟩]) ∧
    profile_dataframe smallDf "ydata" (.fails "boom") = .error "boom" ∧
    (profile_dataframe smallDf "builtin" .succeeds).isOk = true :=
  profiler_importerror_fallback smallDf "builtin" .succeeds "boom" (by decide)

/-- C10: every profile `profile_dataframe` returns — whatever the mode and
engine availability — has `periods = []` and `metrics = []`; the two fields
are never populated on any path. -/
theorem profile_periods_metrics_empty (df : DataFrame) (mode : String)
    (st : YdataStatus) (p : ProfileJSON) (es : List AuditEntry)
    (h : profile_dataframe df mode st = .ok (p, es)) :
    p.periods = [] ∧ p.metrics = [] := by
  unfold profile_dataframe at h
  split at h
  · simp only [Except.ok.injEq, Prod.mk.injEq] at h
    obtain ⟨hp, _⟩ := h
    subst hp
    exact ⟨rfl, rfl⟩
  · split at h
    all_goals
      first
      | (simp only [Except.ok.injEq, Prod.mk.injEq] at h
         obtain ⟨hp, _⟩ := h
         subst hp
         exact ⟨rfl, rfl⟩)
      | simp at h

/-- Witness for C10 on the `none` mode's empty profile. -/
theorem profile_periods_metrics_empty_witness :
    (⟨none, [], [], [], []⟩ : ProfileJSON).periods = [] ∧
    (⟨none, [], [], [], []⟩ : ProfileJSON).metrics = [] :=
  profile_periods_metrics_empty smallDf "none" .succeeds _ _ rfl

theorem cleanColumn_entries (cfg : CleanerConfig) (st : DataFrame × List AuditEntry)
    (kv : String × ColumnTypeInfo) (out : DataFrame × List AuditEntry)
    (h : cleanColumn cfg st kv = .ok out) :
    out.2.map auditShape = st.2.map auditShape ++ coercionEntryShape kv := by
  simp only [cleanColumn] at h
  cases hidx : st.1.cols.indexOf? (ColName.str kv.1) with
  | none => rw [hidx] at h; simp at h
  | some i =>
      rw [hidx] at h
      simp only [Except.ok.injEq] at h
      subst h
      unfold coercionEntryShape
      by_cases h1 : kv.2.column_type = "currency"
      · simp [h1, auditShape]
      · by_cases h2 : kv.2.column_type = "percentage"
        · simp [h1, h2, auditShape]
        · by_cases h3 : kv.2.column_type = "date"
          · simp [h1, h2, h3, auditShape]
          · by_cases h4 : kv.2.column_type = "numeric"
            · simp [h1, h2, h3, h4]
            · simp [h1, h2, h3, h4]

theorem cleanColumns_entries (cfg : CleanerConfig) (ti : List (String × ColumnTypeInfo))
    (st out : DataFrame × List AuditEntry)
    (h : ti.foldlM (cleanColumn cfg) st = .ok out) :
    out.2.map auditShape = st.2.map auditShape ++ ti.flatMap coercionEntryShape := by
  induction ti generalizing st with
  | nil =>
      simp only [List.foldlM_nil] at h
      cases h
      simp
  | cons kv rest ih =>
      rw [List.foldlM_cons] at h
      cases hc : cleanColumn cfg st kv with
      | error e => rw [hc] at h; simp [Bind.bind, Except.bind] at h
      | ok st1 =>
          rw [hc] at h
          simp only [Bind.bind, Except.bind] at h
          rw [ih st1 h, cleanColumn_entries cfg st kv st1 hc]
          simp [List.flatMap_cons, List.append_assoc]

/-- C7 as amended: in one cleaning run each currency, percentage and date
column contributes exactly one audit entry — step `cleaner`, action naming
the coercion, the affected column, the step version — but only the currency
entry records a `rows_affected` count (the null-count delta); percentage and
date entries carry none.  The final `drop_na_rows` entry, present exactly
when either strategy is `drop`, records the row-count delta and no column. -/
theorem cleaner_audit_entry_shape (df : DataFrame) (cfg : CleanerConfig)
    (out : DataFrame × List AuditEntry) (h : clean_dataframe df cfg = .ok out) :
    out.2.map auditShape = expectedCleanerShape (TypeInferencer.infer df) cfg := by
  simp only [clean_dataframe] at h
  cases hf : (TypeInferencer.infer df).foldlM (cleanColumn cfg) (df, []) with
  | error e =>
      rw [hf] at h
      simp [Bind.bind, Except.bind] at h
  | ok res =>
      rw [hf] at h
      simp only [Bind.bind, Except.bind] at h
      have hres := cleanColumns_entries cfg _ _ _ hf
      unfold expectedCleanerShape
      by_cases hdrop : cfg.missing_numeric = "drop" ∨ cfg.missing_text = "drop"
      · rw [if_pos hdrop] at h
        simp only [Except.ok.injEq] at h
        subst h
        simp [hres, auditShape, hdrop]
      · rw [if_neg hdrop] at h
        simp only [pure, Except.pure, Except.ok.injEq] at h
        subst h
        simp [hres, hdrop]

/-- C7 counterexample: cleaning a table with one percentage column logs the
`clean_percentage` entry with `rows_affected = none` — the percentage action
records no rows-affected count, refuting the claim that every
currency/percentage/date/drop action records one. -/
theorem percentage_audit_lacks_rows_affected :
    (clean_dataframe percentDf {}).map Prod.snd =
      .ok [⟨"cleaner", "clean_percentage", some "p", none, some CleanerStepVersion⟩,
           ⟨"cleaner", "drop_na_rows", none, some 0, none⟩] := by
  decide

/-- Witness for the amended C7 on the percentage table. -/
theorem cleaner_audit_entry_shape_witness :
    ([⟨"cleaner", "clean_percentage", some "p", none, some CleanerStepVersion⟩,
      ⟨"cleaner", "drop_na_rows", none, some 0, none⟩] : List AuditEntry).map auditShape =
      expectedCleanerShape (TypeInferencer.infer percentDf) {} :=
  cleaner_audit_entry_shape percentDf {}
    (⟨[.str "p"], [[.num ⟨1, 4⟩], [.num ⟨3, 10⟩]]⟩,
     [⟨"cleaner", "clean_percentage", some "p", none, some CleanerStepVersion⟩,
      ⟨"cleaner", "drop_na_rows", none, some 0, none⟩])
    (by decide)

/-- C2 counterexample: the `good` sheet processes successfully on its own,
yet running the two-sheet workbook whose first sheet raises returns only the
error — the caller receives no PipelineResult for the other sheet, so
partial results are not delivered. -/
theorem sheet_failure_loses_other_results :
    (processSheet {} .unavailable [] "good" numericValueDf numericValueMeta).isOk
      = true ∧
    runSheets {} .unavailable []
        [("bad", textValueDf, textValueMeta),
         ("good", numericValueDf, numericValueMeta)] =
      .error "ValueError: could not convert string to float: abc" := by
  exact ⟨by decide, by decide⟩

/-- C2 as amended: `_run` has no per-sheet isolation — when every sheet
before `sh` processes successfully and `sh` raises, the exception propagates
out of the loop and the run returns only the error: the caller receives no
PipelineResult for any sheet (the earlier sheets' results are lost) and no
record of which sheets failed. -/
theorem sheet_failure_propagates (cfg : PipelineConfig) (yd : YdataStatus)
    (idx : List Nat) (pre : List DataSheet) (sh : DataSheet)
    (rest : List DataSheet) (msg : String)
    (hpre : ∀ s ∈ pre, (processSheet cfg yd idx s.1 s.2.1 s.2.2).isOk = true)
    (hsh : processSheet cfg yd idx sh.1 sh.2.1 sh.2.2 = .error msg) :
    runSheets cfg yd idx (pre ++ sh :: rest) = .error msg := by
  induction pre with
  | nil =>
      simp only [List.nil_append, runSheets]
      rw [hsh]
  | cons p ps ih =>
      have hp := hpre p (by simp)
      obtain ⟨r, hr⟩ : ∃ r, processSheet cfg yd idx p.1 p.2.1 p.2.2 = .ok r := by
        cases hcase : processSheet cfg yd idx p.1 p.2.1 p.2.2 with
        | error e => rw [hcase] at hp; simp [Except.isOk, Except.toBool] at hp
        | ok r => exact ⟨r, rfl⟩
      simp only [List.cons_append, runSheets]
      rw [hr]
      simp only [List.append_eq]
      rw [ih (fun s hs => hpre s (by simp [hs]))]

/-- Witness for the amended C2: the failing sheet first, one healthy sheet
after it, empty prefix. -/
theorem sheet_failure_propagates_witness :
    runSheets {} .unavailable []
        ([] ++ ("bad", textValueDf, textValueMeta) ::
          [("good", numericValueDf, numericValueMeta)]) =
      .error "ValueError: could not convert string to float: abc" :=
  sheet_failure_propagates {} .unavailable [] [] ("bad", textValueDf, textValueMeta)
    [("good", numericValueDf, numericValueMeta)]
    "ValueError: could not convert string to float: abc"
    (fun s hs => absurd hs (List.not_mem_nil s))
    (by decide)

theorem detect_layout_sample_irrel (df : DataFrame) (s1 s2 : List Nat) :
    detect_layout df s1 = detect_layout df s2 := rfl

theorem processSheet_sample_irrel (cfg : PipelineConfig) (yd : YdataStatus)
    (s1 s2 : List Nat) (name : String) (df : DataFrame) (meta : SheetMeta) :
    processSheet cfg yd s1 name df meta = processSheet cfg yd s2 name df meta := rfl

/-- C8: the pipeline is a deterministic function of its input sheets and
config — two runs on identical input differ in nothing but the random row
draw `df.sample` takes inside `detect_layout` (whose result the source only
reads `.columns` from, making the draw irrelevant) and the audit timestamps
(excluded from the embedding, as the spec excludes them from comparison):
the two runs' results, `clean_data` and `profile` included, are equal. -/
theorem pipeline_run_deterministic (cfg : PipelineConfig) (yd : YdataStatus)
    (sheets : List DataSheet) (s1 s2 : List Nat) :
    runSheets cfg yd s1 sheets = runSheets cfg yd s2 sheets := by
  induction sheets with
  | nil => rfl
  | cons sh rest ih =>
      simp only [runSheets]
      rw [processSheet_sample_irrel cfg yd s1 s2, ih]

end FinPipeline
